import Mathlib

/-!
Verification of the rate-retrieval/caching core and conversion logic of the
currency_exchange_api repository (a FastAPI currency converter).

Embedding conventions
=====================

* Python `decimal.Decimal` values are embedded as the structure `Dec`: an exact
  integer mantissa `m` together with a power-of-ten exponent `e`, denoting the
  number `m * 10 ^ e`.  All arithmetic is done on integers, mirroring how the
  decimal module itself computes.  `rate_service.py` line 25 sets
  `getcontext().prec = 15`; the context's rounding mode is the default
  `ROUND_HALF_EVEN`.  Consequently:
  - multiplication (`Dec.mul15`) forms the exact product and rounds the
    mantissa to at most 15 significant digits, half-even;
  - division (`Dec.divp 15`) produces the correctly rounded quotient with 15
    significant digits, half-even;
  - `Decimal.quantize` (`Dec.quantizeHE`) rescales the mantissa to the target
    exponent, rounding half-even, and fails (Python `InvalidOperation`,
    embedded as `none`) when the resulting mantissa would exceed the context
    precision of 15 digits.
  Python compares Decimals by numeric value; `Dec.bleVal` embeds `<=`.

* The database `Session` is embedded as two explicit lists: the persisted
  `ExchangeRate` rows and the persisted `Transaction` rows.  `datetime.now(UTC)`
  is embedded as an explicit `now : Int` parameter (one logical instant per
  request).

* The outcome of the external-API HTTP exchange is embedded as a
  `ProviderResponse` value, and `fecth_from_external_api` (the source's own
  spelling, `rate_service.py` line 135) maps it to either a rate table or the
  `ExternalAPIError` the source raises.  Crucially, `_get_rates`
  (`rate_service.py` line 104) invokes `self._fetch_from_external_api()`, an
  attribute that does not exist on `RateService` (the method is spelled
  `_fecth_from_external_api`), so at run time the fetch step always raises
  `AttributeError` inside the `try` block; the as-executed entry points
  (`get_rates`, `get_exchange_rate`, `convert_currency`) therefore fix the
  fetch outcome to that `AttributeError`, while the `_impl` functions keep the
  outcome of the fetch expression as an explicit parameter so that behaviour
  under provider success/failure can be stated.

* Exceptions are embedded as the inductive `Err`; `Except Err` is the result
  type of each operation, paired with the post-state of the mutable pieces
  (cache, exchange-rate rows, transaction rows).
-/

/-! ## Decimal arithmetic (decimal module with prec = 15, ROUND_HALF_EVEN) -/

/-- Number of decimal digits of `n`, computed with explicit fuel so that the
kernel can evaluate it (`numDigits 0 = 1`, matching the length of a decimal
coefficient). -/
def numDigitsAux : Nat → Nat → Nat
  | 0, _ => 0
  | fuel+1, n => if n < 10 then 1 else numDigitsAux fuel (n / 10) + 1

/-- Number of decimal digits of a natural number. -/
def numDigits (n : Nat) : Nat := numDigitsAux (n + 1) n

/-- `n / d` rounded to the nearest integer, ties to even (`ROUND_HALF_EVEN`),
for natural `n` and positive `d`. -/
def natDivHalfEven (n d : Nat) : Nat :=
  let q := n / d
  let r := n % d
  if 2 * r < d then q
  else if d < 2 * r then q + 1
  else if q % 2 = 0 then q else q + 1

/-- `n / d` rounded to the nearest integer, ties to even; Python decimal
rounding is symmetric about zero. -/
def intDivHalfEven (n : Int) (d : Nat) : Int :=
  if 0 ≤ n then (natDivHalfEven n.toNat d : Int) else -(natDivHalfEven (-n).toNat d : Int)

/-- `n / d` rounded to the nearest integer, ties away from zero
(`ROUND_HALF_UP`); used only to state what the spec's words ask for. -/
def natDivHalfUp (n d : Nat) : Nat :=
  let q := n / d
  let r := n % d
  if 2 * r < d then q else q + 1

/-- Signed half-up integer rounding of `n / d` (ties away from zero). -/
def intDivHalfUp (n : Int) (d : Nat) : Int :=
  if 0 ≤ n then (natDivHalfUp n.toNat d : Int) else -(natDivHalfUp (-n).toNat d : Int)

/-- An exact decimal number `m * 10 ^ e`: the embedding of `decimal.Decimal`. -/
structure Dec where
  m : Int
  e : Int
deriving DecidableEq

/-- Round a decimal so that its mantissa has at most `p` significant digits,
half-even: the rounding the decimal context applies to every arithmetic
result under `getcontext().prec = 15`. -/
def Dec.roundSig (p : Nat) (a : Dec) : Dec :=
  if a.m = 0 then a
  else
    let d := numDigits a.m.natAbs
    if d ≤ p then a
    else
      let k := d - p
      let m' := intDivHalfEven a.m (10 ^ k)
      if numDigits m'.natAbs ≤ p then ⟨m', a.e + (k : Int)⟩
      else ⟨m' / 10, a.e + (k : Int) + 1⟩

/-- Decimal multiplication at context precision 15: exact product of the
mantissas, then rounded to 15 significant digits (half-even). -/
def Dec.mul15 (a b : Dec) : Dec := Dec.roundSig 15 ⟨a.m * b.m, a.e + b.e⟩

/-- Decimal division correctly rounded to `p` significant digits (half-even),
as the decimal module computes `a / b` under precision `p`.  The
scale `s'` is chosen so the integer quotient has exactly `p` digits before
rounding; a rounding carry to `10 ^ p` is renormalised.  Division by zero
cannot occur on the paths modelled here (rates are positive); the zero
guard merely keeps the function total. -/
def Dec.divp (p : Nat) (a b : Dec) : Dec :=
  if a.m = 0 then ⟨0, 0⟩
  else if b.m = 0 then ⟨0, 0⟩
  else
    let n := a.m.natAbs
    let d := b.m.natAbs
    let s : Int := (p : Int) - (numDigits n : Int) + (numDigits d : Int)
    let s' : Int := if n * 10 ^ s.toNat ≥ d * 10 ^ (p + (-s).toNat) then s - 1 else s
    let t := natDivHalfEven (n * 10 ^ s'.toNat) (d * 10 ^ ((-s').toNat))
    let tm : Nat := if t = 10 ^ p then 10 ^ (p - 1) else t
    let te : Int := if t = 10 ^ p then s' - 1 else s'
    ⟨if (0 ≤ a.m) = (0 ≤ b.m) then (tm : Int) else -(tm : Int), a.e - b.e - te⟩

/-- `Decimal.quantize` to target exponent `qe` under the default
`ROUND_HALF_EVEN`: rescale the mantissa, rounding half-even when digits are
dropped.  Returns `none` (Python `decimal.InvalidOperation`) when the
resulting mantissa would have more digits than the context precision 15. -/
def Dec.quantizeHE (a : Dec) (qe : Int) : Option Dec :=
  let m' : Int :=
    if qe ≤ a.e then a.m * 10 ^ (a.e - qe).toNat
    else intDivHalfEven a.m (10 ^ (qe - a.e).toNat)
  if numDigits m'.natAbs ≤ 15 then some ⟨m', qe⟩ else none

/-- Modelled from the spec: quantize to target exponent `qe` with "standard
half-up rounding" — the rounding mode the specification's words prescribe for
the 2-decimal display rounding.  Stated only to be compared with what the
code does (`Dec.quantizeHE`). -/
def quantize_half_up_spec (a : Dec) (qe : Int) : Option Dec :=
  let m' : Int :=
    if qe ≤ a.e then a.m * 10 ^ (a.e - qe).toNat
    else intDivHalfUp a.m (10 ^ (qe - a.e).toNat)
  if numDigits m'.natAbs ≤ 15 then some ⟨m', qe⟩ else none

/-- Value-level `<=` on decimals (Python compares Decimals by numeric value):
bring both mantissas to the smaller exponent and compare. -/
def Dec.bleVal (a b : Dec) : Bool :=
  decide (a.m * 10 ^ (a.e - b.e).toNat ≤ b.m * 10 ^ (b.e - a.e).toNat)

/-! ## Configuration (app/core/config.py) -/

/-- `Settings.SUPPORTED_CURRENCIES` from app/core/config.py. -/
def SUPPORTED_CURRENCIES : List String :=
  ["USD", "EUR", "GBP", "JPY", "AUD", "CAD", "CHF", "CNY", "SEK", "NZD", "BRL"]

/-- `Settings.EXCHANGE_RATE_API_BASE_CURRENCY` from app/core/config.py. -/
def EXCHANGE_RATE_API_BASE_CURRENCY : String := "EUR"

/-- `Settings.ECHANGE_RATE_CACHE_TTL` (the source's spelling), seconds. -/
def ECHANGE_RATE_CACHE_TTL : Int := 3600

/-- Modelled from the spec: `RateService.is_valid_currency` is called at
rate_service.py line 64 but its definition is not present under src/.  The
spec (section 4.2) says both currency codes "must belong to a fixed supported
set", the set configured as `SUPPORTED_CURRENCIES` in app/core/config.py, so
the predicate is membership in that set. -/
def is_valid_currency (currency : String) : Bool :=
  SUPPORTED_CURRENCIES.contains currency

/-! ## Errors (app/core/exceptions.py and the Python built-ins involved) -/

/-- The exceptions that can arise on the modelled paths.  `apiStatusCode`,
`apiInvalidResponse` and `ratesUnavailable` are the three `ExternalAPIError`
cases (status code 503); their string messages in the source are
"API return status code {code}", "Invalid response from exchange rate API"
and "Failed to get exchange rates:{cause}" — the last one wraps the original
failure, which the embedding keeps structurally as `cause`.  `attributeError`
and `keyError` are the Python built-ins; `invalidOperation` is
`decimal.InvalidOperation`. -/
inductive Err where
  | invalidCurrency (code : String)
  | invalidAmount (amount : Dec)
  | apiStatusCode (code : Nat)
  | apiInvalidResponse
  | ratesUnavailable (cause : Err)
  | attributeError (attr : String)
  | keyError (key : String)
  | invalidOperation
deriving DecidableEq

deriving instance DecidableEq for Except

/-! ## Data model (rate tables, cache, persisted rows) -/

/-- A rate table: a JSON-object-like association of currency codes to rates
relative to the base currency. -/
abbrev RateTable := List (String × Dec)

/-- Dictionary lookup (`d[k]` / `k in d`) on an association list. -/
def dictGet {α : Type} : List (String × α) → String → Option α
  | [], _ => none
  | (k', v) :: rest, k => if k' = k then some v else dictGet rest k

/-- Dictionary assignment `d[k] = v`: replace the binding if the key is
present, append it otherwise. -/
def dictUpd {α : Type} : List (String × α) → String → α → List (String × α)
  | [], k, v => [(k, v)]
  | (k', v') :: rest, k, v =>
      if k' = k then (k, v) :: rest else (k', v') :: dictUpd rest k v

/-- One value of `RateService.cache`: the dict
`{"rates": ..., "expires_at": ...}` built at rate_service.py lines 124-127. -/
structure CacheEntry where
  rates : RateTable
  expires_at : Int
deriving DecidableEq

/-- `RateService.cache`, keyed by base currency. -/
abbrev Cache := List (String × CacheEntry)

/-- A persisted `ExchangeRate` row (app/models/models.py).  The source stores
`rates` serialized as a string-valued JSON mapping via `str(rate)` and parses
back with `Decimal(rate)`; that round-trip is exact for decimals, so the
embedding keeps the numeric values. -/
structure ExchangeRateRow where
  base_currency : String
  rates : RateTable
  last_updated : Int
deriving DecidableEq

/-- A persisted `Transaction` row (app/models/models.py); `id` is the
autoincrement primary key assigned on insert. -/
structure Transaction where
  id : Nat
  user_id : String
  source_currency : String
  target_currency : String
  source_amount : Dec
  target_amount : Dec
  exchange_rate : Dec
  timestamp : Int
deriving DecidableEq

/-- The dict returned by `ConversionService.convert_currency`
(conversion_service.py lines 78-85). -/
structure ConversionResult where
  transaction_id : Nat
  user_id : String
  from_currency : String
  from_amount : Dec
  to_currency : String
  to_amount : Dec
  rate : Dec
  timestamp : Int
deriving DecidableEq

/-! ## Rate service (app/services/rate_service.py) -/

/-- The information in the provider's HTTP response that
`_fecth_from_external_api` inspects: the status code, and the `rates` object
if the JSON body has one (`none` embeds a body with no `rates` field). -/
structure ProviderResponse where
  status_code : Nat
  rates : Option RateTable

/-- `RateService._fecth_from_external_api` (the source's own spelling,
rate_service.py lines 135-157), as a function of the HTTP response: non-200
status and missing `rates` field raise `ExternalAPIError`; otherwise the
rates are returned (float-to-Decimal conversion via `Decimal(str(rate))` is
embedded as the exact values already in the table). -/
def fecth_from_external_api (resp : ProviderResponse) : Except Err RateTable :=
  if resp.status_code ≠ 200 then .error (.apiStatusCode resp.status_code)
  else
    match resp.rates with
    | none => .error .apiInvalidResponse
    | some rs => .ok rs

/-- `RateService._save_rates_to_db` (rate_service.py lines 160-181): append a
new `ExchangeRate` row; on any storage failure (`saveOk = false`) the
exception is logged, the session rolled back, and nothing is persisted. -/
def save_rates_to_db (rows : List ExchangeRateRow) (rates : RateTable) (now : Int)
    (saveOk : Bool) : List ExchangeRateRow :=
  if saveOk then rows ++ [⟨EXCHANGE_RATE_API_BASE_CURRENCY, rates, now⟩] else rows

/-- The query at rate_service.py lines 195-200: rows filtered by
`base_currency == base`, ordered by `last_updated` descending, `.first()`. -/
def latestSnapshot (rows : List ExchangeRateRow) (base : String) : Option ExchangeRateRow :=
  rows.foldl
    (fun acc r =>
      if r.base_currency = base then
        match acc with
        | none => some r
        | some b => if b.last_updated < r.last_updated then some r else some b
      else acc)
    none

/-- `RateService._get_rates_from_db` (rate_service.py lines 184-210) as
executed.  When the query finds a row, line 205 iterates
`exchange_rate.items()` — but the `ExchangeRate` row object has no `items`
attribute (the rates mapping is its `rates` column), so an `AttributeError`
is raised, caught by the bare `except Exception` at line 209, logged, and the
function falls through to return `None`.  Hence the function returns `None`
whether or not a snapshot exists. -/
def get_rates_from_db (rows : List ExchangeRateRow) : Option RateTable :=
  match latestSnapshot rows EXCHANGE_RATE_API_BASE_CURRENCY with
  | some _ => none
  | none => none

/-- The body of `RateService._get_rates` from the `try` block on
(rate_service.py lines 101-132), given the outcome of the fetch expression:
on success, cache the rates with `expires_at = now + TTL`, best-effort
persist a snapshot and return the rates; on failure, fall back to any cache
entry (even expired), then to the database, then raise `ExternalAPIError`
wrapping the failure. -/
def get_rates_fetch (cache : Cache) (now : Int) (rows : List ExchangeRateRow)
    (fetchOutcome : Except Err RateTable) (saveOk : Bool) :
    Except Err RateTable × Cache × List ExchangeRateRow :=
  match fetchOutcome with
  | .ok rates =>
      (.ok rates,
       dictUpd cache EXCHANGE_RATE_API_BASE_CURRENCY ⟨rates, now + ECHANGE_RATE_CACHE_TTL⟩,
       save_rates_to_db rows rates now saveOk)
  | .error e =>
      match dictGet cache EXCHANGE_RATE_API_BASE_CURRENCY with
      | some entry => (.ok entry.rates, cache, rows)
      | none =>
          match get_rates_from_db rows with
          | some db_rates => (.ok db_rates, cache, rows)
          | none => (.error (.ratesUnavailable e), cache, rows)

/-- `RateService._get_rates` (rate_service.py lines 86-132) with the outcome
of the fetch expression as an explicit parameter: a fresh cache entry
(`now < expires_at`) short-circuits everything else. -/
def get_rates_impl (cache : Cache) (now : Int) (rows : List ExchangeRateRow)
    (fetchOutcome : Except Err RateTable) (saveOk : Bool) :
    Except Err RateTable × Cache × List ExchangeRateRow :=
  match dictGet cache EXCHANGE_RATE_API_BASE_CURRENCY with
  | some entry =>
      if now < entry.expires_at then (.ok entry.rates, cache, rows)
      else get_rates_fetch cache now rows fetchOutcome saveOk
  | none => get_rates_fetch cache now rows fetchOutcome saveOk

/-- `RateService._get_rates` as executed: line 104 evaluates
`self._fetch_from_external_api`, an attribute `RateService` does not have
(the method is spelled `_fecth_from_external_api`), so the fetch step always
raises `AttributeError` inside the `try` block, whatever the provider would
have answered. -/
def get_rates (cache : Cache) (now : Int) (rows : List ExchangeRateRow) (saveOk : Bool) :
    Except Err RateTable × Cache × List ExchangeRateRow :=
  get_rates_impl cache now rows (.error (.attributeError "_fetch_from_external_api")) saveOk

/-- `RateService.get_exchange_rate` (rate_service.py lines 47-83) with the
fetch outcome as an explicit parameter: validate both currency codes (in
order), short-circuit the same-currency case to `Decimal("1")`, obtain the
base-currency table via `_get_rates`, derive the cross-rate, and quantize it
to 9 decimal places. -/
def get_exchange_rate_impl (from_currency to_currency : String) (cache : Cache) (now : Int)
    (rows : List ExchangeRateRow) (fetchOutcome : Except Err RateTable) (saveOk : Bool) :
    Except Err Dec × Cache × List ExchangeRateRow :=
  if !is_valid_currency from_currency then (.error (.invalidCurrency from_currency), cache, rows)
  else if !is_valid_currency to_currency then (.error (.invalidCurrency to_currency), cache, rows)
  else if from_currency = to_currency then (.ok ⟨1, 0⟩, cache, rows)
  else
    match get_rates_impl cache now rows fetchOutcome saveOk with
    | (.error e, cache', rows') => (.error e, cache', rows')
    | (.ok rates, cache', rows') =>
        let rateResult : Except Err Dec :=
          if from_currency = EXCHANGE_RATE_API_BASE_CURRENCY then
            match dictGet rates to_currency with
            | none => .error (.keyError to_currency)
            | some r => .ok r
          else if to_currency = EXCHANGE_RATE_API_BASE_CURRENCY then
            match dictGet rates from_currency with
            | none => .error (.keyError from_currency)
            | some r => .ok (Dec.divp 15 ⟨1, 0⟩ r)
          else
            match dictGet rates to_currency with
            | none => .error (.keyError to_currency)
            | some rt =>
                match dictGet rates from_currency with
                | none => .error (.keyError from_currency)
                | some rf => .ok (Dec.divp 15 rt rf)
        match rateResult with
        | .error e => (.error e, cache', rows')
        | .ok rate =>
            match rate.quantizeHE (-9) with
            | none => (.error .invalidOperation, cache', rows')
            | some q => (.ok q, cache', rows')

/-- `RateService.get_exchange_rate` as executed (the fetch step always raises
`AttributeError`, see `get_rates`). -/
def get_exchange_rate (from_currency to_currency : String) (cache : Cache) (now : Int)
    (rows : List ExchangeRateRow) (saveOk : Bool) :
    Except Err Dec × Cache × List ExchangeRateRow :=
  get_exchange_rate_impl from_currency to_currency cache now rows
    (.error (.attributeError "_fetch_from_external_api")) saveOk

/-! ## Conversion service (app/services/conversion_service.py) -/

/-- `ConversionService.convert_currency` (conversion_service.py lines 21-85)
with the fetch outcome as an explicit parameter: reject non-positive amounts,
obtain the exchange rate, quantize rate and converted amount to 2 decimal
places, persist the transaction (insert assigns `id = # rows + 1` and the
request's UTC timestamp), and return the result dict.  The
`isinstance(exchange_rate, Decimal)` re-wrapping at lines 56-57 is the
identity here because the rate service always returns a Decimal. -/
def convert_currency_impl (user_id from_currency to_currency : String) (amount : Dec)
    (cache : Cache) (now : Int) (rows : List ExchangeRateRow) (txs : List Transaction)
    (fetchOutcome : Except Err RateTable) (saveOk : Bool) :
    Except Err ConversionResult × Cache × List ExchangeRateRow × List Transaction :=
  if Dec.bleVal amount ⟨0, 0⟩ then (.error (.invalidAmount amount), cache, rows, txs)
  else
    match get_exchange_rate_impl from_currency to_currency cache now rows fetchOutcome saveOk with
    | (.error e, cache', rows') => (.error e, cache', rows', txs)
    | (.ok exchange_rate, cache', rows') =>
        match exchange_rate.quantizeHE (-2) with
        | none => (.error .invalidOperation, cache', rows', txs)
        | some display_rate =>
            match (Dec.mul15 amount display_rate).quantizeHE (-2) with
            | none => (.error .invalidOperation, cache', rows', txs)
            | some converted_amount =>
                let tx : Transaction :=
                  ⟨txs.length + 1, user_id, from_currency, to_currency,
                   amount, converted_amount, display_rate, now⟩
                (.ok ⟨tx.id, user_id, from_currency, amount, to_currency,
                      converted_amount, display_rate, tx.timestamp⟩,
                 cache', rows', txs ++ [tx])

/-- `ConversionService.convert_currency` as executed (the fetch step of the
rate service always raises `AttributeError`, see `get_rates`). -/
def convert_currency (user_id from_currency to_currency : String) (amount : Dec)
    (cache : Cache) (now : Int) (rows : List ExchangeRateRow) (txs : List Transaction)
    (saveOk : Bool) :
    Except Err ConversionResult × Cache × List ExchangeRateRow × List Transaction :=
  convert_currency_impl user_id from_currency to_currency amount cache now rows txs
    (.error (.attributeError "_fetch_from_external_api")) saveOk

/-! ## Helper lemmas -/

/-- As executed, `_get_rates_from_db` returns `None` on every input: the
`exchange_rate.items()` call raises `AttributeError` whenever a row is found,
and the function returns `None` whether or not one is. -/
theorem get_rates_from_db_none (rows : List ExchangeRateRow) :
    get_rates_from_db rows = none := by
  unfold get_rates_from_db
  cases latestSnapshot rows EXCHANGE_RATE_API_BASE_CURRENCY <;> rfl

/-- Unfolding of the fetch-failure branch of `_get_rates`. -/
theorem get_rates_fetch_error (cache : Cache) (now : Int) (rows : List ExchangeRateRow)
    (e : Err) (saveOk : Bool) :
    get_rates_fetch cache now rows (.error e) saveOk
      = match dictGet cache EXCHANGE_RATE_API_BASE_CURRENCY with
        | some entry => (.ok entry.rates, cache, rows)
        | none =>
            match get_rates_from_db rows with
            | some db_rates => (.ok db_rates, cache, rows)
            | none => (.error (.ratesUnavailable e), cache, rows) := rfl

/-- Unfolding of the fetch-success branch of `_get_rates`. -/
theorem get_rates_fetch_ok (cache : Cache) (now : Int) (rows : List ExchangeRateRow)
    (tbl : RateTable) (saveOk : Bool) :
    get_rates_fetch cache now rows (.ok tbl) saveOk
      = (.ok tbl,
         dictUpd cache EXCHANGE_RATE_API_BASE_CURRENCY ⟨tbl, now + ECHANGE_RATE_CACHE_TTL⟩,
         save_rates_to_db rows tbl now saveOk) := rfl

/-! ## Claim theorems -/

/-- Claim C1: for every call to `get_exchange_rate(from_currency, to_currency)`,
if either currency code is outside the fixed supported set, the operation
fails with `InvalidCurrencyError` identifying the offending code (the source
checks `from_currency` first), before any rate lookup or I/O: the result is
the same for every fetch outcome, and cache and store are left unchanged. -/
theorem C1_invalid_currency_rejected_before_io
    (from_currency to_currency : String) (cache : Cache) (now : Int)
    (rows : List ExchangeRateRow) (fetchOutcome : Except Err RateTable) (saveOk : Bool) :
    (is_valid_currency from_currency = false →
      get_exchange_rate_impl from_currency to_currency cache now rows fetchOutcome saveOk
        = (.error (.invalidCurrency from_currency), cache, rows)) ∧
    (is_valid_currency from_currency = true → is_valid_currency to_currency = false →
      get_exchange_rate_impl from_currency to_currency cache now rows fetchOutcome saveOk
        = (.error (.invalidCurrency to_currency), cache, rows)) := by
  constructor
  · intro h
    simp [get_exchange_rate_impl, h]
  · intro h1 h2
    simp [get_exchange_rate_impl, h1, h2]

/-- Witness for C1 at the concrete invalid code "ZZZ". -/
theorem C1_witness :
    get_exchange_rate_impl "ZZZ" "EUR" [] 0 []
        (.error (.attributeError "_fetch_from_external_api")) true
      = (.error (.invalidCurrency "ZZZ"), [], []) :=
  (C1_invalid_currency_rejected_before_io "ZZZ" "EUR" [] 0 []
      (.error (.attributeError "_fetch_from_external_api")) true).1 (by decide)

/-- Claim C5: for every supported currency `X`, `get_exchange_rate(X, X)`
returns exactly `Decimal("1")` (mantissa 1, exponent 0 — the unquantized
literal, so no rounding is applied), with cache and store unchanged and the
same result for every fetch outcome (no provider fetch, no store access). -/
theorem C5_same_currency_exact_one
    (X : String) (cache : Cache) (now : Int) (rows : List ExchangeRateRow)
    (fetchOutcome : Except Err RateTable) (saveOk : Bool)
    (hX : is_valid_currency X = true) :
    get_exchange_rate_impl X X cache now rows fetchOutcome saveOk = (.ok ⟨1, 0⟩, cache, rows) := by
  simp [get_exchange_rate_impl, hX]

/-- Witness for C5 at `X = "JPY"`. -/
theorem C5_witness :
    get_exchange_rate_impl "JPY" "JPY" [] 0 []
        (.error (.attributeError "_fetch_from_external_api")) true
      = (.ok ⟨1, 0⟩, [], []) :=
  C5_same_currency_exact_one "JPY" [] 0 []
    (.error (.attributeError "_fetch_from_external_api")) true (by decide)

/-- Claim C6: for every pair of supported currencies both distinct from the
base currency, `get_exchange_rate` returns `table[to] / table[from]` computed
at 15 significant digits (`Dec.divp 15`) and then rounded to 9 decimal places
(`Dec.quantizeHE (-9)`); the witness instantiates the concrete scenario
base=EUR, rates USD=1.18, JPY=129.55, where the result is 109.788135593. -/
theorem C6_cross_rate_div15_round9
    (from_currency to_currency : String) (cache cache' : Cache) (now : Int)
    (rows rows' : List ExchangeRateRow) (fetchOutcome : Except Err RateTable) (saveOk : Bool)
    (tbl : RateTable) (rf rt v : Dec)
    (hf : is_valid_currency from_currency = true)
    (ht : is_valid_currency to_currency = true)
    (hne : from_currency ≠ to_currency)
    (hfb : from_currency ≠ EXCHANGE_RATE_API_BASE_CURRENCY)
    (htb : to_currency ≠ EXCHANGE_RATE_API_BASE_CURRENCY)
    (hrates : get_rates_impl cache now rows fetchOutcome saveOk = (.ok tbl, cache', rows'))
    (hrt : dictGet tbl to_currency = some rt)
    (hrf : dictGet tbl from_currency = some rf)
    (hq : (Dec.divp 15 rt rf).quantizeHE (-9) = some v) :
    get_exchange_rate_impl from_currency to_currency cache now rows fetchOutcome saveOk
      = (.ok v, cache', rows') := by
  simp [get_exchange_rate_impl, hf, ht, hne, hfb, htb, hrates, hrt, hrf, hq]

/-- Witness for C6: base=EUR with cached table USD=1.18, JPY=129.55 gives
`get_exchange_rate("USD", "JPY") = 109.788135593` (that is, 129.55 / 1.18 at
15 significant digits, rounded to 9 decimal places). -/
theorem C6_witness :
    get_exchange_rate_impl "USD" "JPY"
        [("EUR", ⟨[("USD", ⟨118, -2⟩), ("JPY", ⟨12955, -2⟩)], 100⟩)] 0 []
        (.error (.attributeError "_fetch_from_external_api")) true
      = (.ok ⟨109788135593, -9⟩,
         [("EUR", ⟨[("USD", ⟨118, -2⟩), ("JPY", ⟨12955, -2⟩)], 100⟩)], []) :=
  C6_cross_rate_div15_round9 "USD" "JPY"
    [("EUR", ⟨[("USD", ⟨118, -2⟩), ("JPY", ⟨12955, -2⟩)], 100⟩)]
    [("EUR", ⟨[("USD", ⟨118, -2⟩), ("JPY", ⟨12955, -2⟩)], 100⟩)] 0 [] []
    (.error (.attributeError "_fetch_from_external_api")) true
    [("USD", ⟨118, -2⟩), ("JPY", ⟨12955, -2⟩)] ⟨118, -2⟩ ⟨12955, -2⟩ ⟨109788135593, -9⟩
    (by decide) (by decide) (by decide) (by decide) (by decide)
    (by decide) (by decide) (by decide) (by decide)

/-- Claim C7: for every state where the fetch step fails but a cache entry
exists for the base currency (expired or not), `_get_rates` returns that
cached table and does not fail; cache and store are unchanged. -/
theorem C7_fetch_failure_returns_cached_table
    (cache : Cache) (now : Int) (rows : List ExchangeRateRow) (e : Err) (saveOk : Bool)
    (entry : CacheEntry)
    (hentry : dictGet cache EXCHANGE_RATE_API_BASE_CURRENCY = some entry) :
    get_rates_impl cache now rows (.error e) saveOk = (.ok entry.rates, cache, rows) := by
  unfold get_rates_impl
  rw [hentry]
  by_cases hlt : now < entry.expires_at
  · simp [hlt]
  · simp [hlt, get_rates_fetch_error, hentry]

/-- Witness for C7 with an expired cache entry (`expires_at = 10` in the past
of `now = 50`). -/
theorem C7_witness :
    get_rates_impl [("EUR", ⟨[("USD", ⟨118, -2⟩)], 10⟩)] 50 []
        (.error (.apiStatusCode 500)) true
      = (.ok [("USD", ⟨118, -2⟩)], [("EUR", ⟨[("USD", ⟨118, -2⟩)], 10⟩)], []) :=
  C7_fetch_failure_returns_cached_table
    [("EUR", ⟨[("USD", ⟨118, -2⟩)], 10⟩)] 50 [] (.apiStatusCode 500) true
    ⟨[("USD", ⟨118, -2⟩)], 10⟩ (by decide)

/-- Claim C8: for every state where the fetch step fails, no cache entry
exists for the base currency and the store holds no snapshot for it,
`_get_rates` fails with `ExternalAPIError` wrapping the original fetch
failure reason (the source raises
`ExternalAPIError(f"Failed to get exchange rates:{e!s}") from e`). -/
theorem C8_total_failure_wraps_original_reason
    (cache : Cache) (now : Int) (rows : List ExchangeRateRow) (e : Err) (saveOk : Bool)
    (hnc : dictGet cache EXCHANGE_RATE_API_BASE_CURRENCY = none)
    (hns : latestSnapshot rows EXCHANGE_RATE_API_BASE_CURRENCY = none) :
    get_rates_impl cache now rows (.error e) saveOk
      = (.error (.ratesUnavailable e), cache, rows) := by
  have hdb : get_rates_from_db rows = none := by
    unfold get_rates_from_db
    rw [hns]
  unfold get_rates_impl
  rw [hnc, get_rates_fetch_error, hnc, hdb]

/-- Witness for C8 at an empty cache and an empty store, with the provider
failure "API return status code 500". -/
theorem C8_witness :
    get_rates_impl [] 0 [] (.error (.apiStatusCode 500)) true
      = (.error (.ratesUnavailable (.apiStatusCode 500)), [], []) :=
  C8_total_failure_wraps_original_reason [] 0 [] (.apiStatusCode 500) true
    (by decide) (by decide)

/-- Claim C9: for every amount with value ≤ 0 (any user and currency pair),
`convert_currency` fails with `InvalidAmountError` carrying the offending
value, creates no `Transaction` row, and performs no rate lookup or other
I/O: cache and both stores are unchanged, for every fetch outcome. -/
theorem C9_nonpositive_amount_rejected
    (user_id from_currency to_currency : String) (amount : Dec) (cache : Cache) (now : Int)
    (rows : List ExchangeRateRow) (txs : List Transaction)
    (fetchOutcome : Except Err RateTable) (saveOk : Bool)
    (h : Dec.bleVal amount ⟨0, 0⟩ = true) :
    convert_currency_impl user_id from_currency to_currency amount cache now rows txs
        fetchOutcome saveOk
      = (.error (.invalidAmount amount), cache, rows, txs) := by
  simp [convert_currency_impl, h]

/-- Witness for C9 at amount -100.00. -/
theorem C9_witness :
    convert_currency_impl "test_user" "USD" "EUR" ⟨-10000, -2⟩ [] 0 [] []
        (.error (.attributeError "_fetch_from_external_api")) true
      = (.error (.invalidAmount ⟨-10000, -2⟩), [], [], []) :=
  C9_nonpositive_amount_rejected "test_user" "USD" "EUR" ⟨-10000, -2⟩ [] 0 [] []
    (.error (.attributeError "_fetch_from_external_api")) true (by decide)

/-- Claim C10: `_get_rates` writes the in-memory cache only on the
successful-fetch path.  First conjunct: on every fetch-failure path (stale
cache, database fallback, total failure) the cache mapping is left entirely
unchanged — database rates are never inserted, an expired entry is neither
refreshed nor deleted.  Second conjunct: with a successful fetch outcome the
cache is unchanged on a fresh hit and otherwise gets exactly the one new
entry for the base currency. -/
theorem C10_cache_written_only_on_successful_fetch
    (cache : Cache) (now : Int) (rows : List ExchangeRateRow) (saveOk : Bool) :
    (∀ e : Err, (get_rates_impl cache now rows (.error e) saveOk).2.1 = cache) ∧
    (∀ tbl : RateTable,
      (get_rates_impl cache now rows (.ok tbl) saveOk).2.1
        = match dictGet cache EXCHANGE_RATE_API_BASE_CURRENCY with
          | some entry =>
              if now < entry.expires_at then cache
              else dictUpd cache EXCHANGE_RATE_API_BASE_CURRENCY
                ⟨tbl, now + ECHANGE_RATE_CACHE_TTL⟩
          | none => dictUpd cache EXCHANGE_RATE_API_BASE_CURRENCY
              ⟨tbl, now + ECHANGE_RATE_CACHE_TTL⟩) := by
  constructor
  · intro e
    unfold get_rates_impl
    cases hc : dictGet cache EXCHANGE_RATE_API_BASE_CURRENCY with
    | none =>
        rw [get_rates_fetch_error, hc, get_rates_from_db_none]
    | some entry =>
        by_cases hlt : now < entry.expires_at
        · simp [hlt]
        · simp [hlt, get_rates_fetch_error, hc]
  · intro tbl
    unfold get_rates_impl
    cases hc : dictGet cache EXCHANGE_RATE_API_BASE_CURRENCY with
    | none => rw [get_rates_fetch_ok]
    | some entry =>
        by_cases hlt : now < entry.expires_at
        · simp [hlt]
        · simp [hlt, get_rates_fetch_ok]

/-- Claim C2 (code bug): when the cache has no fresh entry and the provider
would answer successfully, `_get_rates` still fails and caches nothing: line
104 calls `self._fetch_from_external_api()`, but the method defined at line
135 is spelled `_fecth_from_external_api`, so the attribute lookup raises
`AttributeError` inside the `try` block before any HTTP request, and the
provider response is never consulted.  With empty cache and store the result
is `ExternalAPIError` wrapping that `AttributeError` instead of the fetched
table, and the cache stays empty — contradicting the repository's own tests
(`test_get_exchange_rate_successful`, `test_get_exchange_rate_from_cache`). -/
theorem C2_successful_fetch_path_unreachable
    (resp : ProviderResponse) (tbl : RateTable) (now : Int) (saveOk : Bool)
    (hok : fecth_from_external_api resp = .ok tbl) :
    get_rates [] now [] saveOk
      = (.error (.ratesUnavailable (.attributeError "_fetch_from_external_api")), [], []) := rfl

/-- Witness for C2: the provider answers 200 with a well-formed rates object,
yet `get_rates` fails. -/
theorem C2_witness :
    get_rates [] 0 [] true
      = (.error (.ratesUnavailable (.attributeError "_fetch_from_external_api")), [], []) :=
  C2_successful_fetch_path_unreachable ⟨200, some [("USD", ⟨118, -2⟩), ("EUR", ⟨1, 0⟩)]⟩
    [("USD", ⟨118, -2⟩), ("EUR", ⟨1, 0⟩)] 0 true (by decide)

/-- Claim C3 (code bug): with a failing fetch step, an empty cache and a
persisted snapshot for the base currency in the store, `_get_rates` raises
`ExternalAPIError` instead of returning the snapshot's deserialized table:
`_get_rates_from_db` iterates `exchange_rate.items()` (line 205), but the
`ExchangeRate` row object has no `items` attribute, so the `AttributeError`
is caught by the bare `except` and `None` is returned — contradicting the
repository's own test `test_get_exchange_rate_from_db`. -/
theorem C3_db_fallback_returns_error_not_snapshot
    (now : Int) (saveOk : Bool) (e : Err) (row : ExchangeRateRow)
    (hbase : row.base_currency = EXCHANGE_RATE_API_BASE_CURRENCY) :
    get_rates_impl [] now [row] (.error e) saveOk
      = (.error (.ratesUnavailable e), [], [row]) := by
  have h1 : get_rates_impl [] now [row] (.error e) saveOk
      = get_rates_fetch [] now [row] (.error e) saveOk := rfl
  rw [h1, get_rates_fetch_error, get_rates_from_db_none]
  rfl

/-- Witness for C3 at the concrete snapshot of the repository's test
`test_get_exchange_rate_from_db` (base=EUR, USD=1.18, JPY=129.55, BRL=6.35,
EUR=1.0) and the provider failure "API return status code 500". -/
theorem C3_witness :
    get_rates_impl [] 0
        [⟨"EUR", [("USD", ⟨118, -2⟩), ("JPY", ⟨12955, -2⟩), ("BRL", ⟨635, -2⟩),
                  ("EUR", ⟨10, -1⟩)], 0⟩]
        (.error (.apiStatusCode 500)) true
      = (.error (.ratesUnavailable (.apiStatusCode 500)), [],
         [⟨"EUR", [("USD", ⟨118, -2⟩), ("JPY", ⟨12955, -2⟩), ("BRL", ⟨635, -2⟩),
                   ("EUR", ⟨10, -1⟩)], 0⟩]) :=
  C3_db_fallback_returns_error_not_snapshot 0 true (.apiStatusCode 500)
    ⟨"EUR", [("USD", ⟨118, -2⟩), ("JPY", ⟨12955, -2⟩), ("BRL", ⟨635, -2⟩),
             ("EUR", ⟨10, -1⟩)], 0⟩ (by decide)

/-- The cache state used by the C4 counterexample: a fresh EUR entry whose
table maps USD to 0.125, so that the 9-decimal exchange rate is 0.125000000
— a value whose third decimal digit is 5. -/
def cache125 : Cache := [("EUR", ⟨[("USD", ⟨125, -3⟩)], 100⟩)]

/-- Counterexample to claim C4: converting 1.00 EUR to USD with rate table
USD=0.125 yields the persisted/display rate 0.12 and converted amount 0.12,
while "standard half-up rounding" of the 9-decimal rate 0.125000000 would
give 0.13: `quantize(Decimal("0.01"))` uses the decimal context's default
`ROUND_HALF_EVEN`, not half-up, so a third decimal digit of 5 does NOT
always round the second decimal digit up. -/
theorem C4_counterexample :
    (convert_currency "u1" "EUR" "USD" ⟨100, -2⟩ cache125 0 [] [] true).1
      = .ok ⟨1, "u1", "EUR", ⟨100, -2⟩, "USD", ⟨12, -2⟩, ⟨12, -2⟩, 0⟩
    ∧ (get_exchange_rate "EUR" "USD" cache125 0 [] true).1 = .ok ⟨125000000, -9⟩
    ∧ quantize_half_up_spec ⟨125000000, -9⟩ (-2) = some ⟨13, -2⟩
    ∧ (⟨12, -2⟩ : Dec) ≠ ⟨13, -2⟩ := by decide

/-- Claim C4 as amended: in `convert_currency`, the persisted/display
exchange rate is the obtained rate quantized to exactly 2 decimal places and
the converted amount is `amount * display_rate` (at context precision 15)
quantized to exactly 2 decimal places, both under the decimal context's
default half-even (banker's) rounding — a third decimal digit of 5 rounds
the second decimal digit to the nearest even value, not always up. -/
theorem C4_amended_two_decimal_half_even
    (user_id from_currency to_currency : String)
    (amount rate display_rate converted_amount : Dec)
    (cache cache' : Cache) (now : Int) (rows rows' : List ExchangeRateRow)
    (txs : List Transaction) (fetchOutcome : Except Err RateTable) (saveOk : Bool)
    (hpos : Dec.bleVal amount ⟨0, 0⟩ = false)
    (hrate : get_exchange_rate_impl from_currency to_currency cache now rows fetchOutcome saveOk
      = (.ok rate, cache', rows'))
    (hdr : rate.quantizeHE (-2) = some display_rate)
    (hca : (Dec.mul15 amount display_rate).quantizeHE (-2) = some converted_amount) :
    convert_currency_impl user_id from_currency to_currency amount cache now rows txs
        fetchOutcome saveOk
      = (.ok ⟨txs.length + 1, user_id, from_currency, amount, to_currency,
              converted_amount, display_rate, now⟩,
         cache', rows',
         txs ++ [⟨txs.length + 1, user_id, from_currency, to_currency,
                  amount, converted_amount, display_rate, now⟩]) := by
  simp [convert_currency_impl, hpos, hrate, hdr, hca]

/-- Witness for the amended C4 at the tie input: display rate
`quantize(0.125000000, 0.01) = 0.12` under half-even rounding. -/
theorem C4_amended_witness :
    convert_currency_impl "u1" "EUR" "USD" ⟨100, -2⟩ cache125 0 [] []
        (.error (.attributeError "_fetch_from_external_api")) true
      = (.ok ⟨1, "u1", "EUR", ⟨100, -2⟩, "USD", ⟨12, -2⟩, ⟨12, -2⟩, 0⟩,
         cache125, [],
         [⟨1, "u1", "EUR", "USD", ⟨100, -2⟩, ⟨12, -2⟩, ⟨12, -2⟩, 0⟩]) :=
  C4_amended_two_decimal_half_even "u1" "EUR" "USD"
    ⟨100, -2⟩ ⟨125000000, -9⟩ ⟨12, -2⟩ ⟨12, -2⟩ cache125 cache125 0 [] [] []
    (.error (.attributeError "_fetch_from_external_api")) true
    (by decide) (by decide) (by decide) (by decide)
